import Mathlib

/-!
Verification of the root-password-rotation program (`rotation.py`,
`common_functions.py`, `custom_log.py`) against its natural-language
specification.

Shallow embedding conventions:
* A Python secret/password string is a `List Char`.
* External effects (SSH connect, command execution, database reads and
  writes, SMTP delivery) are modelled by explicit outcome parameters of
  type `Except String α`: `.ok` is normal return, `.error e` is the
  exception the Python call would raise (`e` carries its message).
* `secrets.choice(characters)` is modelled by an arbitrary stream of
  draws `draws : Nat → Nat`; the character actually chosen is
  `characters[draws i % characters.length]`, so every draw yields an
  alphabet character and every alphabet character is reachable, exactly
  as with the real cryptographic source.
* Log sinks (`file_log`, `db_log`) never raise in the source
  (`CustomLogger.db_log` catches every exception and falls back to the
  file logger; the `logging` module does not raise), so log emission is
  modelled as pure data (lists of message strings) where a claim needs
  it and omitted where none does.
-/

/-- The fixed alphabet of `generate_random_password`:
`string.ascii_letters + string.digits + '!@#$'` (rotation.py line 77). -/
def charactersString : String :=
  "abcdefghijklmnopqrstuvwxyzABCDEFGHIJKLMNOPQRSTUVWXYZ0123456789!@#$"

/-- The alphabet as a list of characters. -/
def characters : List Char := charactersString.toList

/-- One draw of `secrets.choice(characters)`: the raw draw `n` is reduced
modulo the alphabet size, so the result is always an alphabet member. -/
def charAt (n : Nat) : Char := characters.getD (n % characters.length) 'a'

/-- The candidate built by iteration `iter` of the `while True` loop in
`generate_random_password` (rotation.py lines 79-82): `pass_len` fresh
draws joined into one string. -/
def candidate (draws : Nat → Nat) (passLen iter : Nat) : List Char :=
  (List.range passLen).map (fun j => charAt (draws (iter * passLen + j)))

/-- The `while True` loop of `generate_random_password` (rotation.py lines
79-82), with explicit fuel: draw a candidate, return it unless it is a
member of the history list, otherwise redraw.  `none` means the fuel ran
out before a fresh candidate was found (the Python loop would still be
running). -/
def generateLoop (draws : Nat → Nat) (passLen : Nat) (hist : List (List Char)) :
    Nat → Nat → Option (List Char)
  | _, 0 => none
  | iter, fuel + 1 =>
    let c := candidate draws passLen iter
    if c ∈ hist then generateLoop draws passLen hist (iter + 1) fuel else some c

/-- `Rotation.generate_random_password` (rotation.py lines 65-82).  The
history argument is the value returned by `get_password_history`: `none`
models Python `None` (the query failed), in which case the membership
test `random_pass not in root_pass_history_list` raises `TypeError`. -/
def generate_random_password (draws : Nat → Nat) (passLen : Nat)
    (history : Option (List (List Char))) (fuel : Nat) :
    Except String (Option (List Char)) :=
  match history with
  | none => Except.error "TypeError: argument of type NoneType is not iterable"
  | some hist => Except.ok (generateLoop draws passLen hist 0 fuel)

/-- `Rotation.get_password_history` (rotation.py lines 283-304): on a
database error it logs and implicitly returns `None`; on success it
returns the decrypted rows.  Result: (returned value, file-log messages).
-/
def get_password_history (dbResult : Except String (List (List Char)))
    (decrypt : List Char → List Char) :
    Option (List (List Char)) × List String :=
  match dbResult with
  | Except.ok rows => (some (rows.map decrypt), [])
  | Except.error e =>
      (none, ["Failed to get the password history of all the hosts from database Error:" ++ e])

/-- Outcome of the `ssh.connect` call inside `verify_server_login`
(rotation.py lines 241-256): success, `paramiko.AuthenticationException`
(the only exception the method catches), or any other exception. -/
inductive VerifyOutcome
  | ok
  | authErr (e : String)
  | otherErr (e : String)
deriving DecidableEq, Repr

/-- `Rotation.verify_server_login` (rotation.py lines 230-256): returns
`true` when the login with the new password succeeds, `false` on
`paramiko.AuthenticationException`; any other exception propagates to the
caller (there is no general `except` clause). -/
def verify_server_login : VerifyOutcome → Except String Bool
  | VerifyOutcome.ok => Except.ok true
  | VerifyOutcome.authErr _ => Except.ok false
  | VerifyOutcome.otherErr e => Except.error e

/-- `Rotation.update_password_to_database` (rotation.py lines 306-330):
the database write is wrapped in `try/except`; a failure only produces a
file-log message.  Result: the file-log messages emitted. -/
def update_password_to_database : Except String Unit → List String
  | Except.ok _ => []
  | Except.error e =>
      ["Failed to update the new password to the database for host Error:" ++ e]

/-- `Rotation.store_password_history` (rotation.py lines 258-281): the
database insert is wrapped in `try/except`; a failure only produces a
file-log message.  Result: the file-log messages emitted. -/
def store_password_history : Except String Unit → List String
  | Except.ok _ => []
  | Except.error e =>
      ["Failed to store the new root password in password history table Error:" ++ e]

/-- `Rotation.send_alert_mail` (rotation.py lines 332-367): the SMTP
delivery is wrapped in `try/except Exception`; on failure the error is
only logged.  The result is `Except` so that a hypothetical escaping
exception would be visible to the caller; the theorems show it is always
`.ok`. -/
def send_alert_mail (smtp : Except String Unit) : Except String (List String) :=
  match smtp with
  | Except.ok _ =>
      Except.ok ["Started sending Alert Mail",
                 "Successfully sent the mail regarding Password Failure"]
  | Except.error e =>
      Except.ok ["Started sending Alert Mail",
                 "Failed to send mail regarding Password Failure Error:" ++ e]

/-- `Rotation.send_mail` (rotation.py lines 152-188): the SMTP delivery
is wrapped in `try/except Exception`; on failure the error is only
logged.  As with `send_alert_mail`, the theorems show the result is
always `.ok`. -/
def send_mail (smtp : Except String Unit) : Except String (List String) :=
  match smtp with
  | Except.ok _ =>
      Except.ok ["Started sending mail to the root users regarding completion of Password Rotation",
                 "Successfully sent the mail to the root users regarding completion of Password Rotation"]
  | Except.error e =>
      Except.ok ["Failed to send mail to the root users regarding completion of Password Rotation Error - "
                 ++ e]

deriving instance DecidableEq for Except

/-- The external world seen by one iteration of the attempt loop in
`set_root_password` (rotation.py lines 101-150):
* `connect` — the `ssh.connect` with the host's old password (line 104),
  including the `self.old_passwords[server]` lookup and decryption;
* `execCmd` — `exec_command` plus the stdin writes of the new password
  (lines 109-114) and the stdout read (line 116);
* `verifyConnect` — the outcome of the verification login (line 123);
* `dbUpdate` — the Credential-Store write in
  `update_password_to_database` (line 325);
* `dbStore` — the History-Store insert in `store_password_history`
  (line 276);
* `alertSmtp` — the SMTP delivery inside `send_alert_mail` (line 361),
  used only when this attempt fails with attempts remaining. -/
structure AttemptWorld where
  connect : Except String Unit
  execCmd : Except String Unit
  verifyConnect : VerifyOutcome
  dbUpdate : Except String Unit
  dbStore : Except String Unit
  alertSmtp : Except String Unit
deriving DecidableEq, Repr

/-- Terminal classification of a host: which batch list it is appended
to (rotation.py lines 129, 131, 148). -/
inductive Classification
  | success
  | failed
deriving DecidableEq, Repr

/-- The body of the `try` block of one attempt of `set_root_password`
(rotation.py lines 102-132): connect, change the credential, verify; on
`verify_server_login` returning `true` persist to both stores (their
internal failures only produce logs) and classify the host `success`; on
`false` classify it `failed`.  An `.error` is an exception reaching the
`except` clause of the attempt loop. -/
def attemptBody (w : AttemptWorld) : Except String (Classification × List String) := do
  w.connect
  w.execCmd
  let ok ← verify_server_login w.verifyConnect
  if ok then
    pure (Classification.success,
          update_password_to_database w.dbUpdate ++ store_password_history w.dbStore)
  else
    pure (Classification.failed, [])

/-- Result of running `set_root_password` for one host:
* `classification` — which list the host was appended to (`none` only if
  the loop body never appended, e.g. `max_attempts = 0` or a dead branch);
* `attempts` — number of loop iterations executed;
* `alerts` — number of `send_alert_mail` calls;
* `persistLogs` — file-log messages from the persistence helpers. -/
structure WorkerResult where
  classification : Option Classification
  attempts : Nat
  alerts : Nat
  persistLogs : List String
deriving DecidableEq, Repr

/-- The attempt loop `for attempt in range(1, max_attempts + 1)` of
`set_root_password` (rotation.py lines 101-150), as recursion on the
remaining iteration count (`fuel = maxAttempts - attempt + 1`).  On an
exception with `attempt < max_attempts` the worker logs, sends an alert
and retries after the backoff; the `.error` branch of `send_alert_mail`
models an exception escaping the `except` clause, which would kill the
thread before any list append (the theorems show it is unreachable).  On
the final attempt the host is appended to the failure list. -/
def rotateFrom (world : Nat → AttemptWorld) (maxAttempts : Nat) :
    Nat → Nat → WorkerResult
  | _, 0 => ⟨none, 0, 0, []⟩
  | attempt, fuel + 1 =>
    match attemptBody (world attempt) with
    | Except.ok (cls, logs) => ⟨some cls, 1, 0, logs⟩
    | Except.error _ =>
      if attempt < maxAttempts then
        match send_alert_mail (world attempt).alertSmtp with
        | Except.error _ => ⟨none, 1, 0, []⟩
        | Except.ok _ =>
          let r := rotateFrom world maxAttempts (attempt + 1) fuel
          ⟨r.classification, r.attempts + 1, r.alerts + 1, r.persistLogs⟩
      else ⟨some Classification.failed, 1, 0, []⟩

/-- `Rotation.set_root_password` (rotation.py lines 84-150) for one host:
run the attempt loop starting at attempt 1. -/
def set_root_password (maxAttempts : Nat) (world : Nat → AttemptWorld) : WorkerResult :=
  rotateFrom world maxAttempts 1 maxAttempts

/-- Observable events of one batch run, used to state ordering and
once-per-batch claims:
* `historyRead` — the History-Store select in `get_password_history`,
  called exactly where the source calls it (once, from
  `generate_random_password` during `__init__`);
* `secretGenerated s` — `generate_random_password` returned `s`
  (rotation.py line 46);
* `workerSpawned h s` — `run` started the thread for host `h` with
  password argument `s` (rotation.py lines 56-59);
* `reportAttempted` — `run` called `send_mail` after the join barrier
  (rotation.py line 63). -/
inductive BatchEvent
  | historyRead
  | secretGenerated (s : List Char)
  | workerSpawned (host : String) (s : List Char)
  | reportAttempted
deriving DecidableEq, Repr

/-- The state established by `Rotation.__init__` that `run` reads: the
single batch password `new_password_generated` (rotation.py line 46). -/
structure RotationState where
  new_password_generated : List Char
deriving DecidableEq, Repr

/-- `Rotation.__init__` (rotation.py lines 24-46), restricted to the
steps the claims concern: take the single history snapshot via
`get_password_history` and generate the batch password.  An exception
from `generate_random_password` aborts construction (`.error`); the
artificial message for exhausted generation fuel models a construction
still stuck inside the `while True` loop. -/
def rotationInit (dbHist : Except String (List (List Char)))
    (decrypt : List Char → List Char) (draws : Nat → Nat) (passLen fuel : Nat) :
    Except String (RotationState × List BatchEvent) :=
  match generate_random_password draws passLen (get_password_history dbHist decrypt).1 fuel with
  | Except.error e => Except.error e
  | Except.ok none => Except.error "model: generation fuel exhausted"
  | Except.ok (some s) =>
      Except.ok (⟨s⟩, [BatchEvent.historyRead, BatchEvent.secretGenerated s])

/-- The spawn-and-join phase of `Rotation.run` (rotation.py lines 54-62):
one worker per host, every worker reaching a terminal state before the
result is read.  The worker for host `h` sees the external world
`worlds h`.  Workers append to the two lists; list order in the source
depends on thread completion order, which no claim observes, so hosts
are collected in spawn order. -/
def runWorkers (maxAttempts : Nat) (worlds : String → Nat → AttemptWorld) :
    List String → List String × List String
  | [] => ([], [])
  | h :: t =>
    let r := set_root_password maxAttempts (worlds h)
    let rest := runWorkers maxAttempts worlds t
    match r.classification with
    | some Classification.success => (h :: rest.1, rest.2)
    | some Classification.failed => (rest.1, h :: rest.2)
    | none => (rest.1, rest.2)

/-- Result of one full batch: the shared password, the two terminal
lists, the event trace and the final-report log messages. -/
structure BatchOutcome where
  secret : List Char
  successList : List String
  failList : List String
  trace : List BatchEvent
  reportLogs : List String
deriving DecidableEq, Repr

/-- `Rotation.run` (rotation.py lines 48-63) given the constructed
state: spawn one worker per host passing `new_password_generated` to
each, join them all, then call `send_mail`.  An `.error` from
`send_mail` would abort `run`; the theorems show it cannot occur. -/
def rotationRun (st : RotationState) (maxAttempts : Nat)
    (worlds : String → Nat → AttemptWorld) (hosts : List String)
    (reportSmtp : Except String Unit) : Except String BatchOutcome :=
  let lists := runWorkers maxAttempts worlds hosts
  match send_mail reportSmtp with
  | Except.error e => Except.error e
  | Except.ok logs =>
      Except.ok ⟨st.new_password_generated, lists.1, lists.2,
        (hosts.map (fun h => BatchEvent.workerSpawned h st.new_password_generated))
          ++ [BatchEvent.reportAttempted],
        logs⟩

/-- The program entry point (rotation.py lines 370-372): construct the
`Rotation` object, then call `run`.  A construction failure aborts
before any worker is spawned. -/
def rotationMain (dbHist : Except String (List (List Char)))
    (decrypt : List Char → List Char) (draws : Nat → Nat) (passLen fuel : Nat)
    (maxAttempts : Nat) (worlds : String → Nat → AttemptWorld)
    (hosts : List String) (reportSmtp : Except String Unit) :
    Except String BatchOutcome :=
  match rotationInit dbHist decrypt draws passLen fuel with
  | Except.error e => Except.error e
  | Except.ok (st, initTrace) =>
    match rotationRun st maxAttempts worlds hosts reportSmtp with
    | Except.error e => Except.error e
    | Except.ok out => Except.ok { out with trace := initTrace ++ out.trace }

example :
    set_root_password 3
      (fun _ => ⟨Except.error "conn", Except.ok (), VerifyOutcome.ok,
                 Except.ok (), Except.ok (), Except.ok ()⟩) =
    ⟨some Classification.failed, 3, 2, []⟩ := by decide

example :
    set_root_password 3
      (fun _ => ⟨Except.ok (), Except.ok (), VerifyOutcome.authErr "auth",
                 Except.ok (), Except.ok (), Except.ok ()⟩) =
    ⟨some Classification.failed, 1, 0, []⟩ := by decide

example :
    set_root_password 3
      (fun _ => ⟨Except.ok (), Except.ok (), VerifyOutcome.ok,
                 Except.ok (), Except.ok (), Except.ok ()⟩) =
    ⟨some Classification.success, 1, 0, []⟩ := by decide

example : generateLoop (fun _ => 0) 3 [] 0 1 = some ['a', 'a', 'a'] := by decide

/-! ## Helper lemmas about the worker loop -/

/-- Reduction of monadic bind on a normal `Except` result. -/
theorem except_bind_ok {α β : Type} (a : α) (f : α → Except String β) :
    (Except.ok a >>= f) = f a := rfl

/-- Reduction of monadic bind on a raised `Except` error. -/
theorem except_bind_error {α β : Type} (e : String) (f : α → Except String β) :
    ((Except.error e : Except String α) >>= f) = Except.error e := rfl

/-- `pure` in the `Except` monad is `Except.ok`. -/
theorem except_pure {α : Type} (a : α) :
    (pure a : Except String α) = Except.ok a := rfl

/-- `send_alert_mail` returns normally on every SMTP outcome. -/
theorem send_alert_mail_ok (smtp : Except String Unit) :
    ∃ logs, send_alert_mail smtp = Except.ok logs := by
  cases smtp <;> exact ⟨_, rfl⟩

/-- `send_mail` returns normally on every SMTP outcome. -/
theorem send_mail_ok (smtp : Except String Unit) :
    ∃ logs, send_mail smtp = Except.ok logs := by
  cases smtp <;> exact ⟨_, rfl⟩

/-- If the connect step of an attempt raises, the whole attempt body
raises that error. -/
theorem attemptBody_connect_error (w : AttemptWorld) (e : String)
    (h : w.connect = Except.error e) : attemptBody w = Except.error e := by
  simp [attemptBody, h, except_bind_error]

/-- A worker whose connect step raises on every attempt walks the whole
retry ladder: starting the loop at `attempt` with `fuel` iterations left
(`attempt + fuel = maxAttempts + 1`), it ends `Failed`, performs `fuel`
attempts and sends `fuel - 1` alerts. -/
theorem rotateFrom_connect_fail (world : Nat → AttemptWorld) (maxAttempts : Nat)
    (hfail : ∀ k, ∃ e, (world k).connect = Except.error e) :
    ∀ fuel attempt, attempt + fuel = maxAttempts + 1 → 1 ≤ fuel →
      rotateFrom world maxAttempts attempt fuel =
        ⟨some Classification.failed, fuel, fuel - 1, []⟩ := by
  intro fuel
  induction fuel with
  | zero => intro attempt _ h1; omega
  | succ f ih =>
    intro attempt hsum _
    obtain ⟨e, he⟩ := hfail attempt
    have hbody := attemptBody_connect_error (world attempt) e he
    by_cases hlt : attempt < maxAttempts
    · have hf : 1 ≤ f := by omega
      have hrec := ih (attempt + 1) (by omega) hf
      obtain ⟨logs, halert⟩ := send_alert_mail_ok (world attempt).alertSmtp
      simp only [rotateFrom, hbody, hlt, if_true, halert, hrec]
      have : f - 1 + 1 = f := by omega
      simp [this]
    · have hf0 : f = 0 := by omega
      subst hf0
      simp [rotateFrom, hbody, hlt]

/-- C2's worker-level content as an equation on `set_root_password`. -/
theorem set_root_password_connect_fail (maxAttempts : Nat)
    (world : Nat → AttemptWorld) (hmax : 1 ≤ maxAttempts)
    (hfail : ∀ k, ∃ e, (world k).connect = Except.error e) :
    set_root_password maxAttempts world =
      ⟨some Classification.failed, maxAttempts, maxAttempts - 1, []⟩ := by
  unfold set_root_password
  exact rotateFrom_connect_fail world maxAttempts hfail maxAttempts 1 (by omega) (by omega)

/-! ## C2 -/

/-- C2: a host whose connection attempt always fails performs exactly
`max_attempts` tries, ends `Failed` with the host appended to the
failure list exactly once, and emits exactly `max_attempts - 1` alert
notifications — one per retry, none on the final exhausting attempt. -/
theorem connect_always_fails_exhausts_attempts (maxAttempts : Nat)
    (worlds : String → Nat → AttemptWorld) (server : String)
    (hmax : 1 ≤ maxAttempts)
    (hfail : ∀ k, ∃ e, (worlds server k).connect = Except.error e) :
    set_root_password maxAttempts (worlds server) =
      ⟨some Classification.failed, maxAttempts, maxAttempts - 1, []⟩ ∧
    runWorkers maxAttempts worlds [server] = ([], [server]) := by
  have h := set_root_password_connect_fail maxAttempts (worlds server) hmax hfail
  exact ⟨h, by simp [runWorkers, h]⟩

/-- Witness for C2 at `max_attempts = 3`. -/
theorem connect_always_fails_exhausts_attempts_witness :
    set_root_password 3
        ((fun _ _ => (⟨Except.error "conn", Except.ok (), VerifyOutcome.ok,
            Except.ok (), Except.ok (), Except.ok ()⟩ : AttemptWorld)) "h1") =
      ⟨some Classification.failed, 3, 2, []⟩ ∧
    runWorkers 3
        (fun _ _ => (⟨Except.error "conn", Except.ok (), VerifyOutcome.ok,
            Except.ok (), Except.ok (), Except.ok ()⟩ : AttemptWorld)) ["h1"] =
      ([], ["h1"]) :=
  connect_always_fails_exhausts_attempts 3
    (fun _ _ => ⟨Except.error "conn", Except.ok (), VerifyOutcome.ok,
        Except.ok (), Except.ok (), Except.ok ()⟩) "h1"
    (by omega) (fun _ => ⟨"conn", rfl⟩)

/-! ## C3 -/

/-- C3: when the credential change succeeds but the verification login
fails authentication, the worker is terminal `Failed` immediately: one
attempt, zero retries, zero alerts. -/
theorem verify_auth_failure_is_terminal (maxAttempts : Nat)
    (world : Nat → AttemptWorld) (e : String) (hmax : 1 ≤ maxAttempts)
    (hc : (world 1).connect = Except.ok ())
    (he : (world 1).execCmd = Except.ok ())
    (hv : (world 1).verifyConnect = VerifyOutcome.authErr e) :
    set_root_password maxAttempts world =
      ⟨some Classification.failed, 1, 0, []⟩ := by
  obtain ⟨m, rfl⟩ : ∃ m, maxAttempts = m + 1 := ⟨maxAttempts - 1, by omega⟩
  unfold set_root_password
  simp [rotateFrom, attemptBody, hc, he, hv, verify_server_login, except_bind_ok, except_bind_error, except_pure]

/-- Witness for C3 at `max_attempts = 3`. -/
theorem verify_auth_failure_is_terminal_witness :
    set_root_password 3
        (fun _ => ⟨Except.ok (), Except.ok (), VerifyOutcome.authErr "denied",
            Except.ok (), Except.ok (), Except.ok ()⟩) =
      ⟨some Classification.failed, 1, 0, []⟩ :=
  verify_auth_failure_is_terminal 3
    (fun _ => ⟨Except.ok (), Except.ok (), VerifyOutcome.authErr "denied",
        Except.ok (), Except.ok (), Except.ok ()⟩)
    "denied" (by omega) rfl rfl rfl

/-! ## C4 -/

/-- C4 counterexample: with `max_attempts = 3`, a first attempt whose
Connecting and ChangingCredential stages both succeed but whose
Verifying stage raises a non-authentication error (for example a network
timeout) makes the worker re-enter the retry loop: a second attempt runs
and one alert is emitted, refuting the claim that no Verifying-stage
failure ever triggers retry handling. -/
theorem verify_stage_failure_can_retry_counterexample :
    ((fun k => if k = 1 then
        (⟨Except.ok (), Except.ok (), VerifyOutcome.otherErr "timeout",
          Except.ok (), Except.ok (), Except.ok ()⟩ : AttemptWorld)
      else
        ⟨Except.ok (), Except.ok (), VerifyOutcome.ok,
          Except.ok (), Except.ok (), Except.ok ()⟩) 1).connect = Except.ok () ∧
    ((fun k => if k = 1 then
        (⟨Except.ok (), Except.ok (), VerifyOutcome.otherErr "timeout",
          Except.ok (), Except.ok (), Except.ok ()⟩ : AttemptWorld)
      else
        ⟨Except.ok (), Except.ok (), VerifyOutcome.ok,
          Except.ok (), Except.ok (), Except.ok ()⟩) 1).execCmd = Except.ok () ∧
    set_root_password 3
      (fun k => if k = 1 then
        (⟨Except.ok (), Except.ok (), VerifyOutcome.otherErr "timeout",
          Except.ok (), Except.ok (), Except.ok ()⟩ : AttemptWorld)
      else
        ⟨Except.ok (), Except.ok (), VerifyOutcome.ok,
          Except.ok (), Except.ok (), Except.ok ()⟩) =
      ⟨some Classification.success, 2, 1, []⟩ := by
  refine ⟨rfl, rfl, ?_⟩
  decide

/-- C4 amended: the attempt body raises (and hence retry handling can
trigger) exactly when the Connecting stage fails, the ChangingCredential
stage fails, or the Verifying stage fails with a non-authentication
error; an authentication failure at Verifying instead returns the
terminal `Failed` classification without an exception, so it alone never
re-enters the retry loop. -/
theorem retry_trigger_characterization (w : AttemptWorld) :
    ((∃ e, attemptBody w = Except.error e) ↔
      ((∃ e, w.connect = Except.error e) ∨
       (w.connect = Except.ok () ∧ ∃ e, w.execCmd = Except.error e) ∨
       (w.connect = Except.ok () ∧ w.execCmd = Except.ok () ∧
        ∃ e, w.verifyConnect = VerifyOutcome.otherErr e))) ∧
    (∀ e, w.connect = Except.ok () → w.execCmd = Except.ok () →
      w.verifyConnect = VerifyOutcome.authErr e →
      attemptBody w = Except.ok (Classification.failed, [])) := by
  obtain ⟨c, ec, v, du, ds, al⟩ := w
  cases c with
  | ok u =>
    cases u
    cases ec with
    | ok u2 =>
      cases u2
      cases v <;> simp [attemptBody, verify_server_login, except_bind_ok, except_bind_error, except_pure]
    | error e2 => simp [attemptBody, verify_server_login, except_bind_ok, except_bind_error, except_pure]
  | error e1 => simp [attemptBody, verify_server_login, except_bind_ok, except_bind_error, except_pure]

/-- Witness for C4's amended theorem: an authentication failure at
Verifying yields the terminal failed classification with no exception. -/
theorem retry_trigger_characterization_witness :
    attemptBody ⟨Except.ok (), Except.ok (), VerifyOutcome.authErr "denied",
        Except.ok (), Except.ok (), Except.ok ()⟩ =
      Except.ok (Classification.failed, []) :=
  (retry_trigger_characterization _).2 "denied" rfl rfl rfl

/-! ## C1: the batch partitions the host set -/

/-- With at least one attempt configured, every worker reaches a
terminal classification: the loop always appends the host to one of the
two lists. -/
theorem rotateFrom_terminal (world : Nat → AttemptWorld) (maxAttempts : Nat) :
    ∀ fuel attempt, attempt + fuel = maxAttempts + 1 → 1 ≤ fuel →
      ∃ c, (rotateFrom world maxAttempts attempt fuel).classification = some c := by
  intro fuel
  induction fuel with
  | zero => intro attempt _ h1; omega
  | succ f ih =>
    intro attempt hsum _
    cases hbody : attemptBody (world attempt) with
    | ok r => exact ⟨r.1, by simp [rotateFrom, hbody]⟩
    | error e =>
      by_cases hlt : attempt < maxAttempts
      · have hf : 1 ≤ f := by omega
        obtain ⟨c, hc⟩ := ih (attempt + 1) (by omega) hf
        obtain ⟨logs, halert⟩ := send_alert_mail_ok (world attempt).alertSmtp
        exact ⟨c, by simp [rotateFrom, hbody, hlt, halert, hc]⟩
      · exact ⟨Classification.failed, by simp [rotateFrom, hbody, hlt]⟩

/-- Terminality at the `set_root_password` entry point. -/
theorem set_root_password_terminal (maxAttempts : Nat)
    (world : Nat → AttemptWorld) (hmax : 1 ≤ maxAttempts) :
    ∃ c, (set_root_password maxAttempts world).classification = some c :=
  rotateFrom_terminal world maxAttempts maxAttempts 1 (by omega) (by omega)

/-- Whether the worker for host `h` classifies it a success. -/
def classifiedSuccess (maxAttempts : Nat) (worlds : String → Nat → AttemptWorld)
    (h : String) : Bool :=
  match (set_root_password maxAttempts (worlds h)).classification with
  | some Classification.success => true
  | _ => false

/-- The spawn-and-join phase sends exactly the successfully classified
hosts to the success list and all the others to the failure list. -/
theorem runWorkers_eq_filter (maxAttempts : Nat)
    (worlds : String → Nat → AttemptWorld) (hmax : 1 ≤ maxAttempts) :
    ∀ hosts : List String,
      runWorkers maxAttempts worlds hosts =
        (hosts.filter (classifiedSuccess maxAttempts worlds),
         hosts.filter (fun h => !(classifiedSuccess maxAttempts worlds h))) := by
  intro hosts
  induction hosts with
  | nil => rfl
  | cons h t ih =>
    obtain ⟨c, hc⟩ := set_root_password_terminal maxAttempts (worlds h) hmax
    cases c with
    | success =>
      have hcs : classifiedSuccess maxAttempts worlds h = true := by
        simp [classifiedSuccess, hc]
      simp [runWorkers, hc, ih, List.filter, hcs]
    | failed =>
      have hcs : classifiedSuccess maxAttempts worlds h = false := by
        simp [classifiedSuccess, hc]
      simp [runWorkers, hc, ih, List.filter, hcs]

/-- Count of an element in a filtered list when the predicate holds. -/
theorem count_filter_of_pos {p : String → Bool} {a : String} (hp : p a = true) :
    ∀ l : List String, (l.filter p).count a = l.count a := by
  intro l
  induction l with
  | nil => rfl
  | cons x t ih =>
    by_cases hx : x = a
    · subst hx
      simp [List.filter, hp, List.count_cons, ih]
    · cases hpx : p x <;> simp [List.filter, hpx, List.count_cons, ih, hx]

/-- Count of an element in a filtered list when the predicate fails. -/
theorem count_filter_of_neg {p : String → Bool} {a : String} (hp : p a = false) :
    ∀ l : List String, (l.filter p).count a = 0 := by
  intro l
  induction l with
  | nil => rfl
  | cons x t ih =>
    by_cases hx : x = a
    · subst hx
      simp [List.filter, hp, ih]
    · cases hpx : p x <;> simp [List.filter, hpx, List.count_cons, ih, hx]

/-- C1: with at least one attempt configured and distinct input hosts,
the success and failure lists together are exactly the input host set,
they are disjoint, and each input host is counted exactly once across
the two lists. -/
theorem run_partitions_hosts (maxAttempts : Nat)
    (worlds : String → Nat → AttemptWorld) (hosts : List String)
    (hmax : 1 ≤ maxAttempts) (hnd : hosts.Nodup) :
    (∀ h, (h ∈ (runWorkers maxAttempts worlds hosts).1 ∨
           h ∈ (runWorkers maxAttempts worlds hosts).2) ↔ h ∈ hosts) ∧
    (∀ h, ¬(h ∈ (runWorkers maxAttempts worlds hosts).1 ∧
            h ∈ (runWorkers maxAttempts worlds hosts).2)) ∧
    (∀ h ∈ hosts,
      (runWorkers maxAttempts worlds hosts).1.count h +
        (runWorkers maxAttempts worlds hosts).2.count h = 1) := by
  rw [runWorkers_eq_filter maxAttempts worlds hmax hosts]
  refine ⟨?_, ?_, ?_⟩
  · intro h
    constructor
    · rintro (hm | hm) <;> exact (List.mem_filter.1 hm).1
    · intro hm
      by_cases hcs : classifiedSuccess maxAttempts worlds h = true
      · exact Or.inl (List.mem_filter.2 ⟨hm, hcs⟩)
      · exact Or.inr (List.mem_filter.2 ⟨hm, by simp [hcs]⟩)
  · rintro h ⟨h1, h2⟩
    have hp1 := (List.mem_filter.1 h1).2
    have hp2 := (List.mem_filter.1 h2).2
    simp [hp1] at hp2
  · intro h hm
    have hcount : hosts.count h = 1 := List.count_eq_one_of_mem hnd hm
    by_cases hcs : classifiedSuccess maxAttempts worlds h = true
    · rw [count_filter_of_pos hcs, count_filter_of_neg (by simp [hcs]), hcount]
    · have hcs' : classifiedSuccess maxAttempts worlds h = false := by
        simpa using hcs
      rw [count_filter_of_neg hcs', count_filter_of_pos (by simp [hcs']), hcount]

/-- Witness for C1: two hosts, one succeeding and one failing. -/
theorem run_partitions_hosts_witness :
    (∀ h, (h ∈ (runWorkers 2
        (fun hst _ => if hst = "a" then
          (⟨Except.ok (), Except.ok (), VerifyOutcome.ok,
            Except.ok (), Except.ok (), Except.ok ()⟩ : AttemptWorld)
         else
          ⟨Except.error "conn", Except.ok (), VerifyOutcome.ok,
            Except.ok (), Except.ok (), Except.ok ()⟩) ["a", "b"]).1 ∨
           h ∈ (runWorkers 2
        (fun hst _ => if hst = "a" then
          (⟨Except.ok (), Except.ok (), VerifyOutcome.ok,
            Except.ok (), Except.ok (), Except.ok ()⟩ : AttemptWorld)
         else
          ⟨Except.error "conn", Except.ok (), VerifyOutcome.ok,
            Except.ok (), Except.ok (), Except.ok ()⟩) ["a", "b"]).2) ↔
          h ∈ (["a", "b"] : List String)) ∧
    (∀ h, ¬(h ∈ (runWorkers 2
        (fun hst _ => if hst = "a" then
          (⟨Except.ok (), Except.ok (), VerifyOutcome.ok,
            Except.ok (), Except.ok (), Except.ok ()⟩ : AttemptWorld)
         else
          ⟨Except.error "conn", Except.ok (), VerifyOutcome.ok,
            Except.ok (), Except.ok (), Except.ok ()⟩) ["a", "b"]).1 ∧
            h ∈ (runWorkers 2
        (fun hst _ => if hst = "a" then
          (⟨Except.ok (), Except.ok (), VerifyOutcome.ok,
            Except.ok (), Except.ok (), Except.ok ()⟩ : AttemptWorld)
         else
          ⟨Except.error "conn", Except.ok (), VerifyOutcome.ok,
            Except.ok (), Except.ok (), Except.ok ()⟩) ["a", "b"]).2)) ∧
    (∀ h ∈ (["a", "b"] : List String),
      (runWorkers 2
        (fun hst _ => if hst = "a" then
          (⟨Except.ok (), Except.ok (), VerifyOutcome.ok,
            Except.ok (), Except.ok (), Except.ok ()⟩ : AttemptWorld)
         else
          ⟨Except.error "conn", Except.ok (), VerifyOutcome.ok,
            Except.ok (), Except.ok (), Except.ok ()⟩) ["a", "b"]).1.count h +
        (runWorkers 2
        (fun hst _ => if hst = "a" then
          (⟨Except.ok (), Except.ok (), VerifyOutcome.ok,
            Except.ok (), Except.ok (), Except.ok ()⟩ : AttemptWorld)
         else
          ⟨Except.error "conn", Except.ok (), VerifyOutcome.ok,
            Except.ok (), Except.ok (), Except.ok ()⟩) ["a", "b"]).2.count h = 1) :=
  run_partitions_hosts 2
    (fun hst _ => if hst = "a" then
      (⟨Except.ok (), Except.ok (), VerifyOutcome.ok,
        Except.ok (), Except.ok (), Except.ok ()⟩ : AttemptWorld)
     else
      ⟨Except.error "conn", Except.ok (), VerifyOutcome.ok,
        Except.ok (), Except.ok (), Except.ok ()⟩)
    ["a", "b"] (by omega) (by decide)

/-! ## C7: persistence failures do not change a Success classification -/

/-- C7: once verification succeeds on the first attempt, the host is
classified `Success` with one attempt and no alert, whatever the two
store writes do; the worker's persistence log is exactly what the two
persistence helpers emit, and each helper emits a log message on
failure.  In particular the host is never retried and never reaches the
failure list. -/
theorem persistence_failure_keeps_success (maxAttempts : Nat)
    (world : Nat → AttemptWorld) (hmax : 1 ≤ maxAttempts)
    (hc : (world 1).connect = Except.ok ())
    (he : (world 1).execCmd = Except.ok ())
    (hv : (world 1).verifyConnect = VerifyOutcome.ok) :
    set_root_password maxAttempts world =
      ⟨some Classification.success, 1, 0,
       update_password_to_database (world 1).dbUpdate ++
         store_password_history (world 1).dbStore⟩ ∧
    (∀ e, (world 1).dbUpdate = Except.error e →
      update_password_to_database (world 1).dbUpdate ≠ []) ∧
    (∀ e, (world 1).dbStore = Except.error e →
      store_password_history (world 1).dbStore ≠ []) := by
  obtain ⟨m, rfl⟩ : ∃ m, maxAttempts = m + 1 := ⟨maxAttempts - 1, by omega⟩
  refine ⟨?_, ?_, ?_⟩
  · unfold set_root_password
    simp [rotateFrom, attemptBody, hc, he, hv, verify_server_login,
      except_bind_ok, except_pure]
  · intro e hdb
    simp [update_password_to_database, hdb]
  · intro e hdb
    simp [store_password_history, hdb]

/-- Witness for C7: the Credential-Store write fails, the host is still
classified a success with the failure logged. -/
theorem persistence_failure_keeps_success_witness :
    set_root_password 1
        (fun _ => ⟨Except.ok (), Except.ok (), VerifyOutcome.ok,
            Except.error "db down", Except.ok (), Except.ok ()⟩) =
      ⟨some Classification.success, 1, 0,
       update_password_to_database
           ((fun _ => (⟨Except.ok (), Except.ok (), VerifyOutcome.ok,
              Except.error "db down", Except.ok (), Except.ok ()⟩ : AttemptWorld)) 1).dbUpdate ++
         store_password_history
           ((fun _ => (⟨Except.ok (), Except.ok (), VerifyOutcome.ok,
              Except.error "db down", Except.ok (), Except.ok ()⟩ : AttemptWorld)) 1).dbStore⟩ ∧
    (∀ e, ((fun _ => (⟨Except.ok (), Except.ok (), VerifyOutcome.ok,
              Except.error "db down", Except.ok (), Except.ok ()⟩ : AttemptWorld)) 1).dbUpdate
            = Except.error e →
      update_password_to_database
          ((fun _ => (⟨Except.ok (), Except.ok (), VerifyOutcome.ok,
              Except.error "db down", Except.ok (), Except.ok ()⟩ : AttemptWorld)) 1).dbUpdate ≠ []) ∧
    (∀ e, ((fun _ => (⟨Except.ok (), Except.ok (), VerifyOutcome.ok,
              Except.error "db down", Except.ok (), Except.ok ()⟩ : AttemptWorld)) 1).dbStore
            = Except.error e →
      store_password_history
          ((fun _ => (⟨Except.ok (), Except.ok (), VerifyOutcome.ok,
              Except.error "db down", Except.ok (), Except.ok ()⟩ : AttemptWorld)) 1).dbStore ≠ []) :=
  persistence_failure_keeps_success 1
    (fun _ => ⟨Except.ok (), Except.ok (), VerifyOutcome.ok,
        Except.error "db down", Except.ok (), Except.ok ()⟩)
    (by omega) rfl rfl rfl

/-! ## C8: reporting failures never propagate and never change outcomes -/

/-- The attempt body never reads the alert-SMTP outcome. -/
theorem attemptBody_ignores_alertSmtp (w : AttemptWorld) (x : Except String Unit) :
    attemptBody { w with alertSmtp := x } = attemptBody w := by
  obtain ⟨c, ec, v, du, ds, al⟩ := w
  rfl

/-- The worker loop's result is unchanged when every attempt's alert-SMTP
outcome is replaced: alert delivery failures are swallowed inside
`send_alert_mail`. -/
theorem rotateFrom_ignores_alertSmtp (world : Nat → AttemptWorld)
    (alt : Nat → Except String Unit) (maxAttempts : Nat) :
    ∀ fuel attempt,
      rotateFrom (fun k => { world k with alertSmtp := alt k }) maxAttempts attempt fuel =
        rotateFrom world maxAttempts attempt fuel := by
  intro fuel
  induction fuel with
  | zero => intro attempt; rfl
  | succ f ih =>
    intro attempt
    simp only [rotateFrom, attemptBody_ignores_alertSmtp]
    cases attemptBody (world attempt) with
    | ok r => rfl
    | error e =>
      by_cases hlt : attempt < maxAttempts
      · obtain ⟨l1, h1⟩ := send_alert_mail_ok (alt attempt)
        obtain ⟨l2, h2⟩ := send_alert_mail_ok (world attempt).alertSmtp
        simp [hlt, h1, h2, ih]
      · simp [hlt]

/-- C8: reporting is fire-and-forget.  `send_mail` and `send_alert_mail`
return normally on every SMTP outcome (a delivery failure is only
logged, never re-raised); a worker's result is independent of the alert
delivery outcomes; and for every final-report delivery outcome, `run`
completes with exactly the success and failure lists computed by the
workers. -/
theorem reporting_failures_contained (st : RotationState) (maxAttempts : Nat)
    (worlds : String → Nat → AttemptWorld) (hosts : List String)
    (world : Nat → AttemptWorld) (alt : Nat → Except String Unit) :
    (∀ x, ∃ logs, send_mail x = Except.ok logs) ∧
    (∀ x, ∃ logs, send_alert_mail x = Except.ok logs) ∧
    (∀ e, send_mail (Except.error e) = Except.ok
      ["Failed to send mail to the root users regarding completion of Password Rotation Error - "
       ++ e]) ∧
    (∀ e, send_alert_mail (Except.error e) = Except.ok
      ["Started sending Alert Mail",
       "Failed to send mail regarding Password Failure Error:" ++ e]) ∧
    set_root_password maxAttempts (fun k => { world k with alertSmtp := alt k }) =
      set_root_password maxAttempts world ∧
    (∀ x, ∃ out, rotationRun st maxAttempts worlds hosts x = Except.ok out ∧
      out.successList = (runWorkers maxAttempts worlds hosts).1 ∧
      out.failList = (runWorkers maxAttempts worlds hosts).2) := by
  refine ⟨send_mail_ok, send_alert_mail_ok, fun e => rfl, fun e => rfl, ?_, ?_⟩
  · unfold set_root_password
    exact rotateFrom_ignores_alertSmtp world alt maxAttempts maxAttempts 1
  · intro x
    obtain ⟨logs, hm⟩ := send_mail_ok x
    refine ⟨⟨st.new_password_generated, (runWorkers maxAttempts worlds hosts).1,
        (runWorkers maxAttempts worlds hosts).2,
        (hosts.map (fun h => BatchEvent.workerSpawned h st.new_password_generated))
          ++ [BatchEvent.reportAttempted], logs⟩, ?_, rfl, rfl⟩
    simp [rotationRun, hm]

/-! ## C5: every generated password has the right length, alphabet and
freshness -/

/-- Every draw lands in the alphabet. -/
theorem charAt_mem (n : Nat) : charAt n ∈ characters := by
  have hpos : 0 < characters.length := by decide
  have hlt : n % characters.length < characters.length := Nat.mod_lt _ hpos
  rw [charAt, List.getD_eq_get characters 'a' hlt]
  exact List.get_mem characters _ _

/-- A loop candidate has exactly the requested length. -/
theorem candidate_length (draws : Nat → Nat) (passLen iter : Nat) :
    (candidate draws passLen iter).length = passLen := by
  simp [candidate]

/-- Every character of a loop candidate is an alphabet member. -/
theorem candidate_mem_characters (draws : Nat → Nat) (passLen iter : Nat) :
    ∀ c ∈ candidate draws passLen iter, c ∈ characters := by
  intro c hc
  obtain ⟨j, _, rfl⟩ := List.mem_map.1 hc
  exact charAt_mem _

/-- Whenever the generation loop returns, the result has the requested
length, is drawn from the alphabet, and is not in the history list. -/
theorem generateLoop_some (draws : Nat → Nat) (passLen : Nat)
    (hist : List (List Char)) :
    ∀ fuel iter r, generateLoop draws passLen hist iter fuel = some r →
      r.length = passLen ∧ (∀ c ∈ r, c ∈ characters) ∧ r ∉ hist := by
  intro fuel
  induction fuel with
  | zero => intro iter r h; simp [generateLoop] at h
  | succ f ih =>
    intro iter r h
    by_cases hmem : candidate draws passLen iter ∈ hist
    · exact ih (iter + 1) r (by simpa [generateLoop, hmem] using h)
    · have hr : candidate draws passLen iter = r := by
        simpa [generateLoop, hmem] using h
      subst hr
      exact ⟨candidate_length draws passLen iter,
             candidate_mem_characters draws passLen iter, hmem⟩

/-- C5: when `generate_random_password` returns a password, it has
exactly the requested length, all its characters come from the fixed
alphabet (ASCII letters, digits and `!@#$`), and it is not a member of
the supplied history. -/
theorem generate_random_password_spec (draws : Nat → Nat) (passLen : Nat)
    (hist : List (List Char)) (fuel : Nat) (r : List Char)
    (h : generate_random_password draws passLen (some hist) fuel =
      Except.ok (some r)) :
    r.length = passLen ∧ (∀ c ∈ r, c ∈ characters) ∧ r ∉ hist := by
  have hl : generateLoop draws passLen hist 0 fuel = some r := by
    simpa [generate_random_password] using h
  exact generateLoop_some draws passLen hist fuel 0 r hl

/-- Witness for C5 at length 12 with empty history. -/
theorem generate_random_password_spec_witness :
    (['a','a','a','a','a','a','a','a','a','a','a','a'] : List Char).length = 12 ∧
    (∀ c ∈ (['a','a','a','a','a','a','a','a','a','a','a','a'] : List Char),
      c ∈ characters) ∧
    (['a','a','a','a','a','a','a','a','a','a','a','a'] : List Char) ∉
      ([] : List (List Char)) :=
  generate_random_password_spec (fun _ => 0) 12 [] 1
    ['a','a','a','a','a','a','a','a','a','a','a','a'] (by decide)

/-! ## C9: termination dichotomy of the generation loop -/

/-- Reconstructing a target password from the draw stream: if every
character of `s` is an alphabet member, the stream of alphabet indices
of `s`'s characters makes iteration 0 produce exactly `s`. -/
theorem candidate_of_indexOf (s : List Char) (passLen : Nat)
    (hlen : s.length = passLen) (hc : ∀ c ∈ s, c ∈ characters) :
    candidate (fun j => characters.indexOf (s.getD j 'a')) passLen 0 = s := by
  apply List.ext_get
  · simp [candidate, hlen]
  · intro n h1 h2
    have hn : n < passLen := by simpa [candidate] using h1
    have hns : n < s.length := by omega
    have hsn : s.getD n 'a' = s.get ⟨n, hns⟩ := List.getD_eq_get s 'a' hns
    have hmem : s.get ⟨n, hns⟩ ∈ characters := hc _ (List.get_mem s n hns)
    have hidx : characters.indexOf (s.get ⟨n, hns⟩) < characters.length :=
      List.indexOf_lt_length.2 hmem
    have hmod : characters.indexOf (s.get ⟨n, hns⟩) % characters.length =
        characters.indexOf (s.get ⟨n, hns⟩) := Nat.mod_eq_of_lt hidx
    simp only [candidate, List.get_map, List.get_range, charAt, hsn, Nat.zero_mul,
      Nat.zero_add, hmod]
    rw [List.getD_eq_get characters 'a' hidx]
    exact List.indexOf_get hidx

/-- C9: the generation loop terminates exactly when history leaves room.
If every string of the requested length over the alphabet is already in
the history list, the loop returns nothing at every fuel (the Python
loop never terminates); if at least one such string is missing from
history, there are a draw stream and a finite fuel for which the loop
returns. -/
theorem generateLoop_termination_dichotomy (passLen : Nat)
    (hist : List (List Char)) :
    ((∀ s : List Char, s.length = passLen → (∀ c ∈ s, c ∈ characters) →
        s ∈ hist) →
      ∀ draws fuel iter, generateLoop draws passLen hist iter fuel = none) ∧
    ((∃ s : List Char, s.length = passLen ∧ (∀ c ∈ s, c ∈ characters) ∧
        s ∉ hist) →
      ∃ draws fuel r, generateLoop draws passLen hist 0 fuel = some r) := by
  constructor
  · intro hfull draws fuel
    induction fuel with
    | zero => intro iter; rfl
    | succ f ih =>
      intro iter
      have hmem : candidate draws passLen iter ∈ hist :=
        hfull _ (candidate_length draws passLen iter)
          (candidate_mem_characters draws passLen iter)
      simp [generateLoop, hmem, ih]
  · rintro ⟨s, hlen, hc, hnot⟩
    refine ⟨fun j => characters.indexOf (s.getD j 'a'), 1, s, ?_⟩
    have hcand := candidate_of_indexOf s passLen hlen hc
    have hstep : generateLoop (fun j => characters.indexOf (s.getD j 'a')) passLen hist 0 1 =
        if candidate (fun j => characters.indexOf (s.getD j 'a')) passLen 0 ∈ hist then
          generateLoop (fun j => characters.indexOf (s.getD j 'a')) passLen hist 1 0
        else some (candidate (fun j => characters.indexOf (s.getD j 'a')) passLen 0) := rfl
    rw [hstep, hcand, if_neg hnot]

/-- Witness for C9: at length 1, the history containing every
single-character alphabet string starves the loop, and the empty history
lets it terminate. -/
theorem generateLoop_termination_dichotomy_witness :
    generateLoop (fun _ => 0) 1 (characters.map (fun c => [c])) 0 5 = none ∧
    (∃ draws fuel r, generateLoop draws 1 [] 0 fuel = some r) := by
  constructor
  · refine (generateLoop_termination_dichotomy 1
      (characters.map (fun c => [c]))).1 ?_ (fun _ => 0) 5 0
    intro s hlen hc
    match s, hlen with
    | [c], _ =>
      exact List.mem_map.2 ⟨c, hc c (by simp), rfl⟩
  · exact (generateLoop_termination_dichotomy 1 []).2
      ⟨['a'], rfl, by decide, by decide⟩

/-! ## C6: one secret, one snapshot, shared by every worker -/

/-- Inversion for `rotationInit`: a successful construction carries the
trace of exactly one history read followed by one secret generation, the
generated secret being the state's `new_password_generated`. -/
theorem rotationInit_ok_trace (dbHist : Except String (List (List Char)))
    (decrypt : List Char → List Char) (draws : Nat → Nat) (passLen fuel : Nat)
    (st : RotationState) (tr : List BatchEvent)
    (h : rotationInit dbHist decrypt draws passLen fuel = Except.ok (st, tr)) :
    tr = [BatchEvent.historyRead,
          BatchEvent.secretGenerated st.new_password_generated] := by
  unfold rotationInit at h
  cases hg : generate_random_password draws passLen
      (get_password_history dbHist decrypt).1 fuel with
  | error e => rw [hg] at h; exact Except.noConfusion h
  | ok o =>
    cases o with
    | none => rw [hg] at h; exact Except.noConfusion h
    | some s =>
      rw [hg] at h
      injection h with h'
      rw [Prod.mk.injEq] at h'
      obtain ⟨hst, htr⟩ := h'
      subst hst
      exact htr.symm

/-- C6: whenever the program completes a batch, its event trace starts
with exactly one history-snapshot read followed immediately by exactly
one secret generation; nothing later in the trace reads history or
generates a secret again, and every spawned worker receives the one
batch secret. -/
theorem single_secret_single_snapshot (dbHist : Except String (List (List Char)))
    (decrypt : List Char → List Char) (draws : Nat → Nat)
    (passLen fuel maxAttempts : Nat) (worlds : String → Nat → AttemptWorld)
    (hosts : List String) (reportSmtp : Except String Unit) (out : BatchOutcome)
    (h : rotationMain dbHist decrypt draws passLen fuel maxAttempts worlds hosts
        reportSmtp = Except.ok out) :
    ∃ rest, out.trace = BatchEvent.historyRead ::
        BatchEvent.secretGenerated out.secret :: rest ∧
      (∀ ev ∈ rest, ev ≠ BatchEvent.historyRead ∧
        ∀ s, ev ≠ BatchEvent.secretGenerated s) ∧
      (∀ host s, BatchEvent.workerSpawned host s ∈ out.trace → s = out.secret) := by
  unfold rotationMain at h
  cases hinit : rotationInit dbHist decrypt draws passLen fuel with
  | error e => rw [hinit] at h; exact Except.noConfusion h
  | ok p =>
    obtain ⟨st, tr⟩ := p
    rw [hinit] at h
    have htr := rotationInit_ok_trace dbHist decrypt draws passLen fuel st tr hinit
    obtain ⟨logs, hm⟩ := send_mail_ok reportSmtp
    have hrun : rotationRun st maxAttempts worlds hosts reportSmtp =
        Except.ok ⟨st.new_password_generated,
          (runWorkers maxAttempts worlds hosts).1,
          (runWorkers maxAttempts worlds hosts).2,
          (hosts.map (fun hst =>
            BatchEvent.workerSpawned hst st.new_password_generated))
            ++ [BatchEvent.reportAttempted], logs⟩ := by
      simp [rotationRun, hm]
    have h2 : (match rotationRun st maxAttempts worlds hosts reportSmtp with
        | Except.error e => (Except.error e : Except String BatchOutcome)
        | Except.ok o => Except.ok { o with trace := tr ++ o.trace }) =
        Except.ok out := h
    rw [hrun] at h2
    injection h2 with h'
    subst h'
    subst htr
    refine ⟨(hosts.map (fun hst =>
        BatchEvent.workerSpawned hst st.new_password_generated))
        ++ [BatchEvent.reportAttempted], rfl, ?_, ?_⟩
    · intro ev hev
      rcases List.mem_append.1 hev with hev' | hev'
      · obtain ⟨hst, _, rfl⟩ := List.mem_map.1 hev'
        exact ⟨by simp, fun s => by simp⟩
      · rw [List.mem_singleton.1 hev']
        exact ⟨by simp, fun s => by simp⟩
    · intro host s hs
      have hs' : BatchEvent.workerSpawned host s ∈
          BatchEvent.historyRead ::
            BatchEvent.secretGenerated st.new_password_generated ::
            ((hosts.map (fun hst =>
              BatchEvent.workerSpawned hst st.new_password_generated))
              ++ [BatchEvent.reportAttempted]) := hs
      rcases List.mem_cons.1 hs' with h1 | hs1
      · exact absurd h1 (fun hh => BatchEvent.noConfusion hh)
      rcases List.mem_cons.1 hs1 with h1 | hs2
      · exact absurd h1 (fun hh => BatchEvent.noConfusion hh)
      rcases List.mem_append.1 hs2 with h1 | h1
      · obtain ⟨hst, _, heq⟩ := List.mem_map.1 h1
        injection heq with _ hsec
        exact hsec.symm
      · rw [List.mem_singleton] at h1
        exact absurd h1 (fun hh => BatchEvent.noConfusion hh)

/-- Witness for C6: a one-host batch with empty history. -/
theorem single_secret_single_snapshot_witness :
    ∃ rest, (⟨['a'], ["h"], [],
        [BatchEvent.historyRead, BatchEvent.secretGenerated ['a'],
         BatchEvent.workerSpawned "h" ['a'], BatchEvent.reportAttempted],
        ["Started sending mail to the root users regarding completion of Password Rotation",
         "Successfully sent the mail to the root users regarding completion of Password Rotation"]⟩
          : BatchOutcome).trace =
        BatchEvent.historyRead ::
          BatchEvent.secretGenerated
            (⟨['a'], ["h"], [],
              [BatchEvent.historyRead, BatchEvent.secretGenerated ['a'],
               BatchEvent.workerSpawned "h" ['a'], BatchEvent.reportAttempted],
              ["Started sending mail to the root users regarding completion of Password Rotation",
               "Successfully sent the mail to the root users regarding completion of Password Rotation"]⟩
                : BatchOutcome).secret :: rest ∧
      (∀ ev ∈ rest, ev ≠ BatchEvent.historyRead ∧
        ∀ s, ev ≠ BatchEvent.secretGenerated s) ∧
      (∀ host s, BatchEvent.workerSpawned host s ∈
          (⟨['a'], ["h"], [],
            [BatchEvent.historyRead, BatchEvent.secretGenerated ['a'],
             BatchEvent.workerSpawned "h" ['a'], BatchEvent.reportAttempted],
            ["Started sending mail to the root users regarding completion of Password Rotation",
             "Successfully sent the mail to the root users regarding completion of Password Rotation"]⟩
              : BatchOutcome).trace →
          s = (⟨['a'], ["h"], [],
            [BatchEvent.historyRead, BatchEvent.secretGenerated ['a'],
             BatchEvent.workerSpawned "h" ['a'], BatchEvent.reportAttempted],
            ["Started sending mail to the root users regarding completion of Password Rotation",
             "Successfully sent the mail to the root users regarding completion of Password Rotation"]⟩
              : BatchOutcome).secret) :=
  single_secret_single_snapshot (Except.ok []) id (fun _ => 0) 1 1 1
    (fun _ _ => ⟨Except.ok (), Except.ok (), VerifyOutcome.ok,
        Except.ok (), Except.ok (), Except.ok ()⟩)
    ["h"] (Except.ok ()) _ rfl

/-! ## C10: a history-query failure aborts construction -/

/-- C10: if the History-Store query raises, `get_password_history` logs
the error and returns `None`; `generate_random_password` then raises a
`TypeError` from the membership test against `None` instead of returning
a secret, so the whole program aborts during construction — `rotationMain`
returns that error and no batch outcome (hence no worker) ever exists. -/
theorem history_query_failure_aborts (e : String)
    (decrypt : List Char → List Char) (draws : Nat → Nat)
    (passLen fuel maxAttempts : Nat) (worlds : String → Nat → AttemptWorld)
    (hosts : List String) (reportSmtp : Except String Unit) :
    (get_password_history (Except.error e) decrypt).1 = none ∧
    (get_password_history (Except.error e) decrypt).2 ≠ [] ∧
    generate_random_password draws passLen
        (get_password_history (Except.error e) decrypt).1 fuel =
      Except.error "TypeError: argument of type NoneType is not iterable" ∧
    rotationMain (Except.error e) decrypt draws passLen fuel maxAttempts worlds
        hosts reportSmtp =
      Except.error "TypeError: argument of type NoneType is not iterable" := by
  exact ⟨rfl, by simp [get_password_history], rfl, rfl⟩
